import Mathlib

/-!
Verification of the conversation turn orchestrator
(`src/hooks/useConversationLoop.ts`).

The hook is embedded shallowly: React state becomes an explicit
`LoopState`, the adapter callbacks supplied through the options object
become an `Env` of explicit (possibly failing) functions, promise
rejection becomes `Except String`, and every adapter invocation is
recorded as an `Event` so that ordering properties can be stated on
traces.  The two concurrent branches of `runTurn` (filler speech and the
backend query) are kept as separate event streams; an arbitrary
cooperative interleaving of the pre-join portion is applied by
`runTurnTrace`.
-/

namespace ConvLoop

/-- `ConversationRole` from `lib/types.ts`: `"user" | "assistant"`. -/
inductive Role where
  | user
  | assistant
deriving DecidableEq, Repr

/-- `ConversationMessage` from `lib/types.ts`.  The source also carries an
`id` built from `Date.now()` and `Math.random()` and a `createdAt`
timestamp; both are ambient nondeterminism that the orchestrator never
reads back, so the embedding tracks the fields its logic uses: `role` and
`text`. -/
structure ConversationMessage where
  role : Role
  text : String
deriving DecidableEq, Repr

/-- `UiStatus` from `lib/types.ts`. -/
inductive UiStatus where
  | idle
  | connecting
  | listening
  | thinking
  | speaking
  | error
deriving DecidableEq, Repr

/-- The opaque `Record<string, unknown>` payload of an Adaptive Card
`Action.Submit` button, embedded as a key/value list.  The orchestrator
only passes it through and tests its presence (a JS object is truthy even
when empty, so presence is `Option.isSome`). -/
def SubmitAction : Type := List (String × String)

instance : DecidableEq SubmitAction := by
  unfold SubmitAction
  infer_instance

/-- `CopilotSigninCard` from `lib/types.ts`. -/
structure CopilotSigninCard where
  title : String
  message : String
  tokenExchangeResourceUri : Option String
  tokenExchangeResourceId : Option String
  connectionName : Option String
  submitAction : Option SubmitAction
deriving DecidableEq

/-- `CopilotMessageResponse` from `lib/types.ts`. -/
structure CopilotMessageResponse where
  botReply : String
  speechText : Option String
  signinCard : Option CopilotSigninCard
deriving DecidableEq

/-- Parameter object of the `exchangeConnectionToken` adapter. -/
structure ExchangeParams where
  connectionToken : String
  connectionName : String
  tokenExchangeResourceId : String
deriving DecidableEq

/-- JavaScript truthiness of an optional string: `undefined` and `""` are
falsy, every other string is truthy. -/
def strTruthy : Option String → Bool
  | none => false
  | some s => !(s == "")

/-- Drop leading whitespace characters from a character list. -/
def dropLeadingWs : List Char → List Char
  | [] => []
  | c :: cs => if c.isWhitespace then dropLeadingWs cs else c :: cs

/-- JavaScript `String.prototype.trim`: strip leading and trailing
whitespace.  (Embedded structurally over the character list so that it
reduces on concrete inputs; the whitespace class is `Char.isWhitespace`.) -/
def jsTrim (s : String) : String :=
  ⟨(dropLeadingWs (dropLeadingWs s.data).reverse).reverse⟩

/-- JavaScript `String.prototype.includes` on character lists: the
pattern occurs somewhere in the list (the empty pattern always does). -/
def listContains (pat : List Char) : List Char → Bool
  | [] => pat.isEmpty
  | c :: cs => pat.isPrefixOf (c :: cs) || listContains pat cs

/-- JavaScript `String.prototype.includes`. -/
def jsIncludes (s sub : String) : Bool :=
  listContains sub.data s.data

/-- Fuelled core of `replaceAll`: replace each leftmost, non-overlapping
occurrence of `pat`.  The fuel (at least the list length plus one, with a
non-empty pattern) makes the recursion structural. -/
def replaceAllFuel (pat repl : List Char) : Nat → List Char → List Char
  | 0, s => s
  | _ + 1, [] => []
  | fuel + 1, c :: cs =>
      if pat.isPrefixOf (c :: cs) && !pat.isEmpty then
        repl ++ replaceAllFuel pat repl fuel (List.drop pat.length (c :: cs))
      else c :: replaceAllFuel pat repl fuel cs

/-- JavaScript `String.prototype.replaceAll` with a literal pattern. -/
def jsReplaceAll (s pat repl : String) : String :=
  ⟨replaceAllFuel pat.data repl.data (s.data.length + 1) s.data⟩

/-- Outcome of the `fetch("/api/tts/synthesize", ...)` call made by
`synthesizeSpeech`: a response with `response.ok` and a parsed `audio`
field, a non-ok response with its body text, or a network/parse failure
(rejected promise). -/
inductive TtsFetch where
  | ok (audio : Option String)
  | notOk (body : String)
  | netErr (msg : String)
deriving DecidableEq

/-- One observable interaction of the orchestrator: an adapter call, or a
`setSigninCard` state write (recorded so that claims about the pending
card's lifetime are statable on traces). -/
inductive Event where
  | fetchTts (text : String)
  | speakAudio (audio : String)
  | interruptSpeech
  | sendCopilotMessage (text : String)
  | acquireConnectionToken (scope : String)
  | exchangeConnectionToken (connectionToken connectionName tokenExchangeResourceId : String)
  | submitCardAction (payload : SubmitAction)
  | setSigninCard (card : Option CopilotSigninCard)
deriving DecidableEq

/-- The environment of the hook: the adapter callbacks from
`UseConversationLoopOptions` (optional ones as `Option`), the TTS fetch
endpoint, and the module-level `FILLER_TEXT_TEMPLATE` constant (already
`trim()`-or-empty in the source). -/
structure Env where
  fillerTemplate : String
  fetchTts : String → TtsFetch
  speakAudio : String → Except String Unit
  interruptSpeech : Option (Except String Unit)
  sendCopilotMessage : String → Except String CopilotMessageResponse
  acquireConnectionToken : Option (String → Except String (Option String))
  exchangeConnectionToken : Option (ExchangeParams → Except String CopilotMessageResponse)
  submitCardAction : Option (SubmitAction → Except String CopilotMessageResponse)

/-- The React state of `useConversationLoop`. -/
structure LoopState where
  history : List ConversationMessage
  status : UiStatus
  isProcessing : Bool
  error : Option String
  signinCard : Option CopilotSigninCard
  isExchanging : Bool
deriving DecidableEq

/-- The `message(role, text)` helper (id/createdAt elided, see
`ConversationMessage`). -/
def message (role : Role) (text : String) : ConversationMessage :=
  { role := role, text := text }

/-- `synthesizeSpeech`: POST to the TTS route; throw the body text on a
non-ok response; throw if the payload carries no (truthy) `audio`. -/
def synthesizeSpeech (env : Env) (text : String) : Except String String :=
  match env.fetchTts text with
  | .netErr m => .error m
  | .notOk body => .error body
  | .ok none => .error "TTS route did not return audio"
  | .ok (some audio) =>
      if audio == "" then .error "TTS route did not return audio" else .ok audio

/-- The `speechText || displayText` fallback in `processBotReply`:
an absent or empty `speechText` falls back to `displayText`. -/
def ttsInput (displayText : String) (speechText : Option String) : String :=
  match speechText with
  | some t => if t == "" then displayText else t
  | none => displayText

/-- `processBotReply(displayText, speechText?)`: append the assistant
message, set status `speaking`, synthesize, play, set status `listening`.
Returns the state reached so far (state writes before a throw persist),
the resolution, and the adapter calls made. -/
def processBotReply (env : Env) (s : LoopState) (displayText : String)
    (speechText : Option String) : LoopState × Except String Unit × List Event :=
  let s1 := { s with history := s.history ++ [message .assistant displayText],
                     status := .speaking }
  let text := ttsInput displayText speechText
  match synthesizeSpeech env text with
  | .error m => (s1, .error m, [.fetchTts text])
  | .ok audio =>
      match env.speakAudio audio with
      | .error m => (s1, .error m, [.fetchTts text, .speakAudio audio])
      | .ok _ => ({ s1 with status := .listening }, .ok (), [.fetchTts text, .speakAudio audio])

/-- The filler phrase built by `speakFiller`: user text truncated to 80
characters (plus an ellipsis when truncated) substituted for the literal
template placeholder when present. -/
def fillerTextOf (template userText : String) : String :=
  let truncated :=
    if userText.length > 80 then String.mk (userText.data.take 80) ++ "..." else userText
  if jsIncludes template "\x7b\x7binput\x7d\x7d" then
    jsReplaceAll template "\x7b\x7binput\x7d\x7d" truncated
  else template

/-- The body of `speakFiller`'s `try` block: synthesize the filler phrase
and play it. -/
def speakFillerBody (env : Env) (userText : String) : Except String Unit × List Event :=
  let text := fillerTextOf env.fillerTemplate userText
  match synthesizeSpeech env text with
  | .error m => (.error m, [.fetchTts text])
  | .ok audio =>
      match env.speakAudio audio with
      | .error m => (.error m, [.fetchTts text, .speakAudio audio])
      | .ok _ => (.ok (), [.fetchTts text, .speakAudio audio])

/-- `speakFiller(userText)`: disabled when the template is empty;
otherwise runs its body under a catch that swallows every failure. -/
def speakFiller (env : Env) (userText : String) : Except String Unit × List Event :=
  if env.fillerTemplate == "" then (.ok (), [])
  else
    match speakFillerBody env userText with
    | (.error _, evts) => (.ok (), evts)
    | (.ok _, evts) => (.ok (), evts)

/-- `trySilentExchange(card)`: `null` without any call when the card lacks
any of uri/id/name or either adapter is missing; otherwise acquire a
connection token (a `null` or empty token means consent is needed, also
`null`), then exchange it. -/
def trySilentExchange (env : Env) (card : CopilotSigninCard) :
    Except String (Option CopilotMessageResponse) × List Event :=
  match card.tokenExchangeResourceUri, card.tokenExchangeResourceId, card.connectionName,
        env.acquireConnectionToken, env.exchangeConnectionToken with
  | some uri, some rid, some cn, some acquire, some exchange =>
      if uri == "" || rid == "" || cn == "" then (.ok none, [])
      else
        match acquire uri with
        | .error m => (.error m, [.acquireConnectionToken uri])
        | .ok none => (.ok none, [.acquireConnectionToken uri])
        | .ok (some tok) =>
            if tok == "" then (.ok none, [.acquireConnectionToken uri])
            else
              match exchange { connectionToken := tok, connectionName := cn,
                               tokenExchangeResourceId := rid } with
              | .error m =>
                  (.error m, [.acquireConnectionToken uri,
                              .exchangeConnectionToken tok cn rid])
              | .ok resp =>
                  (.ok (some resp), [.acquireConnectionToken uri,
                                     .exchangeConnectionToken tok cn rid])
  | _, _, _, _, _ => (.ok none, [])

/-- The branch of `runTurn` taken after a successful silent exchange:
speak the replacement reply if non-empty, otherwise return to listening;
either way the original card is skipped. -/
def runTurnSilentReply (env : Env) (s : LoopState) (exchangeResult : CopilotMessageResponse) :
    LoopState × Except String Unit × List Event :=
  let exchangeReply := jsTrim exchangeResult.botReply
  if exchangeReply != "" then
    processBotReply env s exchangeReply (exchangeResult.speechText.map jsTrim)
  else
    ({ s with status := .listening }, .ok (), [])

/-- The tail of `runTurn` after the signin card (if any) has been stored:
speak the bot reply when non-empty, otherwise display the card's message
(when it has one) and return to listening. -/
def runTurnMainReply (env : Env) (s : LoopState) (botReply : String)
    (speechText : Option String) (nextSigninCard : Option CopilotSigninCard) :
    LoopState × Except String Unit × List Event :=
  if botReply != "" then
    processBotReply env s botReply speechText
  else
    match nextSigninCard with
    | some card =>
        if jsTrim card.message != "" then
          ({ s with history := s.history ++ [message .assistant (jsTrim card.message)],
                    status := .listening }, .ok (), [])
        else
          ({ s with status := .listening }, .ok (), [])
    | none => ({ s with status := .listening }, .ok (), [])

/-- The part of `runTurn` after the join point (status already set to
`thinking`): the consent short-circuit, then the main reply handling. -/
def runTurnAfter (env : Env) (s : LoopState) (response : CopilotMessageResponse) :
    LoopState × Except String Unit × List Event :=
  let botReply := jsTrim response.botReply
  match response.signinCard with
  | some card =>
      if strTruthy card.tokenExchangeResourceUri then
        match trySilentExchange env card with
        | (.error m, exEvts) => (s, .error m, exEvts)
        | (.ok (some exchangeResult), exEvts) =>
            let r := runTurnSilentReply env s exchangeResult
            (r.1, r.2.1, exEvts ++ r.2.2)
        | (.ok none, exEvts) =>
            let s1 := { s with signinCard := some card }
            let r := runTurnMainReply env s1 botReply
              (response.speechText.map jsTrim) (some card)
            (r.1, r.2.1, exEvts ++ Event.setSigninCard (some card) :: r.2.2)
      else
        let s1 := { s with signinCard := some card }
        let r := runTurnMainReply env s1 botReply
          (response.speechText.map jsTrim) (some card)
        (r.1, r.2.1, Event.setSigninCard (some card) :: r.2.2)
  | none =>
      runTurnMainReply env s botReply (response.speechText.map jsTrim) none

deriving instance DecidableEq for Except

/-- Outcome of the main (backend) branch of a turn, before the
surrounding catch/finally is applied: the state written so far, the
resolution, and the main-branch events split at the join point
(`await fillerPromise.catch(...)`). -/
structure CoreOutcome where
  state : LoopState
  result : Except String Unit
  preJoinEvents : List Event
  postJoinEvents : List Event
deriving DecidableEq

/-- The `try` block of `runTurn`, starting after the synchronous step-1
state writes: send to Copilot, interrupt any playing filler, (join), set
status `thinking`, then `runTurnAfter`. -/
def runTurnCore (env : Env) (s : LoopState) (cleanText : String) : CoreOutcome :=
  match env.sendCopilotMessage cleanText with
  | .error m => { state := s, result := .error m,
                  preJoinEvents := [.sendCopilotMessage cleanText], postJoinEvents := [] }
  | .ok response =>
      let intr : Except String Unit × List Event :=
        match env.interruptSpeech with
        | none => (.ok (), [])
        | some r => (r, [.interruptSpeech])
      let preJoin := Event.sendCopilotMessage cleanText :: intr.2
      match intr.1 with
      | .error m => { state := s, result := .error m,
                      preJoinEvents := preJoin, postJoinEvents := [] }
      | .ok _ =>
          let r := runTurnAfter env { s with status := .thinking } response
          { state := r.1, result := r.2.1, preJoinEvents := preJoin, postJoinEvents := r.2.2 }

/-- Full outcome of one `runTurn` call: final state, resolution, and the
events grouped as the synchronous prologue, the concurrently running
filler branch, the main branch up to the join, and everything after the
join. -/
structure TurnOutcome where
  state : LoopState
  result : Except String Unit
  initEvents : List Event
  fillerEvents : List Event
  preJoinEvents : List Event
  postJoinEvents : List Event
deriving DecidableEq

/-- Step 1 of `runTurn`: clear the error and any pending card, set the
re-entrancy flag, set status `speaking`, append the user message. -/
def turnStartState (s0 : LoopState) (cleanText : String) : LoopState :=
  { s0 with error := none, signinCard := none, isProcessing := true,
            status := .speaking,
            history := s0.history ++ [message .user cleanText] }

/-- `runTurn(userText)`: re-entrancy/empty-input guard, step-1 state
writes, the concurrent filler and backend branches, and the top-level
catch (status `error`, record message, rethrow) and finally
(clear `isProcessing`). -/
def runTurn (env : Env) (s0 : LoopState) (userText : String) : TurnOutcome :=
  let cleanText := jsTrim userText
  if cleanText == "" || s0.isProcessing then
    { state := s0, result := .ok (), initEvents := [], fillerEvents := [],
      preJoinEvents := [], postJoinEvents := [] }
  else
    let s := turnStartState s0 cleanText
    let core := runTurnCore env s cleanText
    let finalState :=
      match core.result with
      | .ok _ => { core.state with isProcessing := false }
      | .error m =>
          { core.state with status := .error, error := some m, isProcessing := false }
    { state := finalState, result := core.result,
      initEvents := [.setSigninCard none],
      fillerEvents := (speakFiller env cleanText).2,
      preJoinEvents := core.preJoinEvents,
      postJoinEvents := core.postJoinEvents }

/-- Interleaving of two event streams under a list of scheduler choices
(`true` pulls from the first stream); leftovers are appended first-stream
first.  Per-stream order is preserved for every choice list. -/
def interleave : List Bool → List Event → List Event → List Event
  | _, [], ys => ys
  | _, xs, [] => xs
  | [], xs, ys => xs ++ ys
  | true :: cs, x :: xs, ys => x :: interleave cs xs ys
  | false :: cs, xs, y :: ys => y :: interleave cs xs ys

/-- The observable trace of one turn under a scheduler choice list: the
synchronous prologue, then the filler branch interleaved with the main
branch up to the join, then the post-join events. -/
def runTurnTrace (choices : List Bool) (o : TurnOutcome) : List Event :=
  o.initEvents ++ interleave choices o.fillerEvents o.preJoinEvents ++ o.postJoinEvents

/-- Outcome of the sequential operations (`completeTokenExchange`,
`submitAllowAction`). -/
structure OpResult where
  state : LoopState
  result : Except String Unit
  events : List Event
deriving DecidableEq

/-- The shared success continuation of `completeTokenExchange` and
`submitAllowAction` after the backend call resolved: clear the card,
speak the follow-up reply (a failure there is caught: status `error`,
message recorded, no rethrow), or store a follow-up card, or return to
listening; finally clear `isExchanging`. -/
def handleExchangeSuccess (env : Env) (s1 : LoopState) (result : CopilotMessageResponse) :
    LoopState × List Event :=
  let s2 := { s1 with signinCard := none }
  let botReply := jsTrim result.botReply
  if botReply != "" then
    match processBotReply env s2 botReply (result.speechText.map jsTrim) with
    | (s3, .ok _, evts) =>
        ({ s3 with isExchanging := false }, Event.setSigninCard none :: evts)
    | (s3, .error m, evts) =>
        ({ s3 with status := .error, error := some m, isExchanging := false },
         Event.setSigninCard none :: evts)
  else
    match result.signinCard with
    | some card2 =>
        ({ s2 with signinCard := some card2, status := .listening, isExchanging := false },
         [Event.setSigninCard none, Event.setSigninCard (some card2)])
    | none =>
        ({ s2 with status := .listening, isExchanging := false }, [Event.setSigninCard none])

/-- `completeTokenExchange(connectionToken)`: throw synchronously when no
pending card carries truthy `tokenExchangeResourceId` and
`connectionName` or the exchange adapter is missing; otherwise exchange
the token, with every runtime failure caught (status `error`, message
recorded, card untouched on an exchange-call failure). -/
def completeTokenExchange (env : Env) (s : LoopState) (connectionToken : String) : OpResult :=
  let pre : Option (String × String) :=
    match s.signinCard with
    | none => none
    | some card =>
        match card.tokenExchangeResourceId, card.connectionName with
        | some rid, some cn => if rid == "" || cn == "" then none else some (rid, cn)
        | _, _ => none
  match pre, env.exchangeConnectionToken with
  | some (rid, cn), some exchange =>
      let s1 := { s with error := none, isExchanging := true, status := .thinking }
      match exchange { connectionToken := connectionToken, connectionName := cn,
                       tokenExchangeResourceId := rid } with
      | .error m =>
          { state := { s1 with status := .error, error := some m, isExchanging := false },
            result := .ok (),
            events := [.exchangeConnectionToken connectionToken cn rid] }
      | .ok result =>
          let r := handleExchangeSuccess env s1 result
          { state := r.1, result := .ok (),
            events := Event.exchangeConnectionToken connectionToken cn rid :: r.2 }
  | _, _ =>
      { state := s, result := .error "No pending signin card with token exchange metadata",
        events := [] }

/-- `submitAllowAction()`: throw synchronously when no pending card
carries a `submitAction` payload or the submit adapter is missing;
otherwise send the payload, with every runtime failure caught. -/
def submitAllowAction (env : Env) (s : LoopState) : OpResult :=
  match s.signinCard.bind CopilotSigninCard.submitAction, env.submitCardAction with
  | some payload, some submit =>
      let s1 := { s with error := none, isExchanging := true, status := .thinking }
      match submit payload with
      | .error m =>
          { state := { s1 with status := .error, error := some m, isExchanging := false },
            result := .ok (), events := [.submitCardAction payload] }
      | .ok result =>
          let r := handleExchangeSuccess env s1 result
          { state := r.1, result := .ok (), events := Event.submitCardAction payload :: r.2 }
  | _, _ =>
      { state := s, result := .error "No pending signin card with submit action data",
        events := [] }

/-- `dismissSigninCard()`. -/
def dismissSigninCard (s : LoopState) : LoopState :=
  { s with signinCard := none, status := .listening }

/-- `clearHistory()`. -/
def clearHistory (s : LoopState) : LoopState :=
  { s with history := [], signinCard := none }

/-! ### Concrete fixtures

Environments and states used by witnesses and counterexamples.  Filler is
disabled (empty template) unless a fixture says otherwise, matching an
unset `NEXT_PUBLIC_FILLER_TEXT_TEMPLATE`. -/

/-- A response with plain reply text and no card. -/
def respBase : CopilotMessageResponse :=
  { botReply := "hello there", speechText := none, signinCard := none }

/-- Baseline environment: every adapter succeeds, optional adapters are
left unset. -/
def baseEnv : Env where
  fillerTemplate := ""
  fetchTts := fun _ => .ok (some "audio64")
  speakAudio := fun _ => .ok ()
  interruptSpeech := none
  sendCopilotMessage := fun _ => .ok respBase
  acquireConnectionToken := none
  exchangeConnectionToken := none
  submitCardAction := none

/-- The initial hook state. -/
def idleState : LoopState where
  history := []
  status := .idle
  isProcessing := false
  error := none
  signinCard := none
  isExchanging := false

/-- Adapter calls that talk to the speech pipeline (TTS or playback). -/
def Event.isSpeech : Event → Bool
  | .fetchTts _ => true
  | .speakAudio _ => true
  | _ => false
/-- A state with a turn in flight. -/
def busyState : LoopState := { idleState with isProcessing := true }
/-- Environment whose playback-interrupt request fails while every other
adapter (the backend and the whole speech pipeline) succeeds; the filler
branch is disabled. -/
def envC3 : Env := { baseEnv with interruptSpeech := some (.error "interrupt failed") }
/-- Environment with the filler branch enabled and failing (its TTS call
rejects) and every main-path adapter succeeding. -/
def envFillerFails : Env :=
  { baseEnv with
    fillerTemplate := "One moment",
    fetchTts := fun t => if t == "One moment" then .netErr "filler tts down"
                         else .ok (some "audio64") }
/-- A SigninCard with full token exchange metadata. -/
def cardC4 : CopilotSigninCard :=
  { title := "Sign in", message := "Please sign in",
    tokenExchangeResourceUri := some "https://resource",
    tokenExchangeResourceId := some "rid-1",
    connectionName := some "SharePoint",
    submitAction := none }
/-- The replacement reply produced by the silent exchange. -/
def respExchanged : CopilotMessageResponse :=
  { botReply := "here are your files", speechText := none, signinCard := none }
/-- A backend reply carrying only the SigninCard. -/
def respWithCardC4 : CopilotMessageResponse :=
  { botReply := "", speechText := none, signinCard := some cardC4 }
/-- Environment where the silent exchange path fully succeeds. -/
def envC4 : Env :=
  { baseEnv with
    sendCopilotMessage := fun _ => .ok respWithCardC4,
    acquireConnectionToken := some (fun _ => .ok (some "connTok")),
    exchangeConnectionToken := some (fun _ => .ok respExchanged) }
/-- Environment with the interrupt adapter wired (and succeeding). -/
def envC5 : Env := { baseEnv with interruptSpeech := some (.ok ()) }
/-- A SigninCard with a token exchange URI but no resource id. -/
def cardC6 : CopilotSigninCard :=
  { title := "Sign in", message := "",
    tokenExchangeResourceUri := some "https://resource",
    tokenExchangeResourceId := none,
    connectionName := some "SharePoint",
    submitAction := none }
/-- A backend reply carrying only `cardC6`. -/
def respWithCardC6 : CopilotMessageResponse :=
  { botReply := "", speechText := none, signinCard := some cardC6 }
/-- Environment delivering `cardC6`, with both silent-auth adapters
wired and succeeding. -/
def envC6 : Env :=
  { baseEnv with
    sendCopilotMessage := fun _ => .ok respWithCardC6,
    acquireConnectionToken := some (fun _ => .ok (some "connTok")),
    exchangeConnectionToken := some (fun _ => .ok respExchanged) }
/-- The pending state used by the `completeTokenExchange` scenarios. -/
def pendingState : LoopState :=
  { idleState with signinCard := some cardC4, status := .listening }
/-- The follow-up reply returned by a successful exchange. -/
def respFollowUp : CopilotMessageResponse :=
  { botReply := "follow-up", speechText := none, signinCard := none }
/-- Environment where the exchange call itself succeeds but the
follow-up reply's speech synthesis fails. -/
def envC7 : Env :=
  { baseEnv with
    exchangeConnectionToken := some (fun _ => .ok respFollowUp),
    fetchTts := fun _ => .netErr "tts down" }

/-! ### General lemmas about the operations -/


/-- `speakFiller` always resolves: its catch swallows every failure of
its body. -/
theorem speakFiller_result (env : Env) (userText : String) :
    (speakFiller env userText).1 = .ok () := by
  unfold speakFiller
  split
  · rfl
  · split <;> rfl

/-- The body of the filler branch only talks to the speech pipeline. -/
theorem speakFillerBody_events_speech (env : Env) (userText : String) :
    ∀ e ∈ (speakFillerBody env userText).2, e.isSpeech = true := by
  unfold speakFillerBody
  dsimp only
  split
  · simp [Event.isSpeech]
  · split <;> simp [Event.isSpeech]

/-- The filler branch only talks to the speech pipeline. -/
theorem speakFiller_events_speech (env : Env) (userText : String) :
    ∀ e ∈ (speakFiller env userText).2, e.isSpeech = true := by
  unfold speakFiller
  split
  · simp
  · split
    all_goals
      rename_i heq
      have h2 : (speakFillerBody env userText).2 = _ := congrArg Prod.snd heq
      intro e he
      exact speakFillerBody_events_speech env userText e (by rw [h2]; exact he)

/-- `processBotReply` appends exactly the assistant message with the
display text, whether or not synthesis or playback then fails. -/
theorem processBotReply_history (env : Env) (s : LoopState) (d : String) (st : Option String) :
    (processBotReply env s d st).1.history = s.history ++ [message .assistant d] := by
  unfold processBotReply
  dsimp only
  split
  · rfl
  · split <;> rfl

/-- `processBotReply` never touches the pending signin card. -/
theorem processBotReply_signinCard (env : Env) (s : LoopState) (d : String) (st : Option String) :
    (processBotReply env s d st).1.signinCard = s.signinCard := by
  unfold processBotReply
  dsimp only
  split
  · rfl
  · split <;> rfl

/-- When `processBotReply` resolves, it has set status `listening`. -/
theorem processBotReply_ok_status (env : Env) (s : LoopState) (d : String) (st : Option String)
    (h : (processBotReply env s d st).2.1 = .ok ()) :
    (processBotReply env s d st).1.status = .listening := by
  unfold processBotReply at h ⊢
  dsimp only at h ⊢
  split at h
  · exact absurd h (by simp)
  · split at h
    · exact absurd h (by simp)
    · rfl

/-- `processBotReply` only talks to the speech pipeline. -/
theorem processBotReply_events_speech (env : Env) (s : LoopState) (d : String)
    (st : Option String) : ∀ e ∈ (processBotReply env s d st).2.2, e.isSpeech = true := by
  unfold processBotReply
  dsimp only
  split
  · simp [Event.isSpeech]
  · split <;> simp [Event.isSpeech]

/-- An element of an interleaving comes from one of the two streams, and
conversely every element of either stream appears in every
interleaving. -/
theorem mem_interleave (a : Event) : ∀ (cs : List Bool) (xs ys : List Event),
    a ∈ interleave cs xs ys ↔ a ∈ xs ∨ a ∈ ys := by
  intro cs
  induction cs with
  | nil =>
      intro xs ys
      cases xs with
      | nil => simp [interleave]
      | cons x xs =>
          cases ys with
          | nil => simp [interleave]
          | cons y ys => simp [interleave]; tauto
  | cons b cs ih =>
      intro xs ys
      cases xs with
      | nil => simp [interleave]
      | cons x xs =>
          cases ys with
          | nil => simp [interleave]
          | cons y ys =>
              cases b <;> simp [interleave, ih] <;> tauto

/-- `runTurnSilentReply` only appends to history. -/
theorem runTurnSilentReply_history (env : Env) (s : LoopState) (ex : CopilotMessageResponse) :
    ∃ tail, (runTurnSilentReply env s ex).1.history = s.history ++ tail := by
  unfold runTurnSilentReply
  dsimp only
  split
  · exact ⟨_, processBotReply_history env s _ _⟩
  · exact ⟨[], by simp⟩

/-- `runTurnMainReply` only appends to history. -/
theorem runTurnMainReply_history (env : Env) (s : LoopState) (botReply : String)
    (st : Option String) (c : Option CopilotSigninCard) :
    ∃ tail, (runTurnMainReply env s botReply st c).1.history = s.history ++ tail := by
  unfold runTurnMainReply
  split
  · exact ⟨_, processBotReply_history env s _ _⟩
  · split
    · split
      · exact ⟨_, rfl⟩
      · exact ⟨[], by simp⟩
    · exact ⟨[], by simp⟩

/-- `runTurnAfter` only appends to history. -/
theorem runTurnAfter_history (env : Env) (s : LoopState) (r : CopilotMessageResponse) :
    ∃ tail, (runTurnAfter env s r).1.history = s.history ++ tail := by
  unfold runTurnAfter
  dsimp only
  split
  · split
    · split
      · exact ⟨[], by simp⟩
      · exact runTurnSilentReply_history env s _
      · exact runTurnMainReply_history env _ _ _ _
    · exact runTurnMainReply_history env _ _ _ _
  · exact runTurnMainReply_history env s _ _ _

/-- `runTurnCore` only appends to history. -/
theorem runTurnCore_history (env : Env) (s : LoopState) (c : String) :
    ∃ tail, (runTurnCore env s c).state.history = s.history ++ tail := by
  unfold runTurnCore
  dsimp only
  repeat' split
  all_goals first
    | exact runTurnAfter_history env _ _
    | exact ⟨[], by simp⟩

/-- `handleExchangeSuccess` only appends to history. -/
theorem handleExchangeSuccess_history (env : Env) (s1 : LoopState)
    (result : CopilotMessageResponse) :
    ∃ tail, (handleExchangeSuccess env s1 result).1.history = s1.history ++ tail := by
  unfold handleExchangeSuccess
  dsimp only
  split
  · split <;>
      (rename_i s3 rest heq
       have h3 := processBotReply_history env { s1 with signinCard := none }
         (jsTrim result.botReply) (result.speechText.map jsTrim)
       rw [heq] at h3
       exact ⟨_, h3⟩)
  · split
    · exact ⟨[], by simp⟩
    · exact ⟨[], by simp⟩

/-- `runTurn` only appends to history. -/
theorem runTurn_history (env : Env) (s : LoopState) (userText : String) :
    ∃ tail, (runTurn env s userText).state.history = s.history ++ tail := by
  unfold runTurn
  dsimp only
  split
  · exact ⟨[], by simp⟩
  · obtain ⟨tail, ht⟩ := runTurnCore_history env
      (turnStartState s (jsTrim userText)) (jsTrim userText)
    refine ⟨message .user (jsTrim userText) :: tail, ?_⟩
    split <;> (dsimp only; rw [ht]; simp [turnStartState])

/-- `completeTokenExchange` only appends to history. -/
theorem completeTokenExchange_history (env : Env) (s : LoopState) (connectionToken : String) :
    ∃ tail, (completeTokenExchange env s connectionToken).state.history
      = s.history ++ tail := by
  unfold completeTokenExchange
  dsimp only
  split
  · split
    · exact ⟨[], by simp⟩
    · exact handleExchangeSuccess_history env _ _
  · exact ⟨[], by simp⟩

/-- `submitAllowAction` only appends to history. -/
theorem submitAllowAction_history (env : Env) (s : LoopState) :
    ∃ tail, (submitAllowAction env s).state.history = s.history ++ tail := by
  unfold submitAllowAction
  dsimp only
  split
  · split
    · exact ⟨[], by simp⟩
    · exact handleExchangeSuccess_history env _ _
  · exact ⟨[], by simp⟩

/-! ### C9 -/

/-- C9: history is append-only under every operation — `runTurn`,
`processBotReply`, `completeTokenExchange` and `submitAllowAction` only
ever append messages at the end (and `processBotReply` appends exactly
the assistant message), `dismissSigninCard` leaves history unchanged, and
the single exception `clearHistory` empties the sequence and clears the
pending card while leaving the status (and everything else) untouched. -/
theorem history_append_only (env : Env) (s : LoopState)
    (userText connectionToken d : String) (st : Option String) :
    (∃ tail, (runTurn env s userText).state.history = s.history ++ tail)
    ∧ (processBotReply env s d st).1.history = s.history ++ [message .assistant d]
    ∧ (∃ tail, (completeTokenExchange env s connectionToken).state.history
        = s.history ++ tail)
    ∧ (∃ tail, (submitAllowAction env s).state.history = s.history ++ tail)
    ∧ (dismissSigninCard s).history = s.history
    ∧ clearHistory s = { s with history := [], signinCard := none } :=
  ⟨runTurn_history env s userText,
   processBotReply_history env s d st,
   completeTokenExchange_history env s connectionToken,
   submitAllowAction_history env s,
   rfl, rfl⟩

/-! ### C1 -/

/-- C1: invoking `runTurn` while a previous turn is in flight (the
`isProcessing` re-entrancy flag is set) is a complete no-op: the state is
unchanged and no adapter is called. -/
theorem runTurn_reentrant_noop (env : Env) (s : LoopState) (userText : String)
    (h : s.isProcessing = true) :
    runTurn env s userText =
      { state := s, result := .ok (), initEvents := [], fillerEvents := [],
        preJoinEvents := [], postJoinEvents := [] } := by
  unfold runTurn
  simp [h]


/-- C1 witness: the re-entrancy no-op at a concrete busy state. -/
theorem runTurn_reentrant_noop_witness :
    busyState.isProcessing = true ∧
    runTurn baseEnv busyState "hello" =
      { state := busyState, result := .ok (), initEvents := [], fillerEvents := [],
        preJoinEvents := [], postJoinEvents := [] } :=
  ⟨rfl, runTurn_reentrant_noop baseEnv busyState "hello" rfl⟩

/-! ### C3 -/

/-- When `runTurnSilentReply` resolves, status is `listening`. -/
theorem runTurnSilentReply_ok_status (env : Env) (s : LoopState) (ex : CopilotMessageResponse)
    (h : (runTurnSilentReply env s ex).2.1 = .ok ()) :
    (runTurnSilentReply env s ex).1.status = .listening := by
  unfold runTurnSilentReply at h ⊢
  dsimp only at h ⊢
  cases hb : jsTrim ex.botReply != "" <;> simp only [hb] at h ⊢
  · simp
  · simp only [if_true]
    exact processBotReply_ok_status env s _ _ (by simpa using h)

/-- When `runTurnMainReply` resolves, status is `listening`. -/
theorem runTurnMainReply_ok_status (env : Env) (s : LoopState) (botReply : String)
    (st : Option String) (c : Option CopilotSigninCard)
    (h : (runTurnMainReply env s botReply st c).2.1 = .ok ()) :
    (runTurnMainReply env s botReply st c).1.status = .listening := by
  unfold runTurnMainReply at h ⊢
  cases hb : botReply != "" <;> simp only [hb] at h ⊢
  · rcases hc : c with _ | card <;> simp only [hc] at h ⊢
    · simp
    · cases hm : jsTrim card.message != "" <;> simp only [hm] at h ⊢ <;> simp
  · simp only [if_true]
    exact processBotReply_ok_status env s _ _ (by simpa using h)

/-- When `runTurnAfter` resolves, status is `listening`. -/
theorem runTurnAfter_ok_status (env : Env) (s : LoopState) (r : CopilotMessageResponse)
    (h : (runTurnAfter env s r).2.1 = .ok ()) :
    (runTurnAfter env s r).1.status = .listening := by
  unfold runTurnAfter at h ⊢
  dsimp only at h ⊢
  rcases hc : r.signinCard with _ | card <;> simp only [hc] at h ⊢
  · exact runTurnMainReply_ok_status env s _ _ _ h
  · cases hu : strTruthy card.tokenExchangeResourceUri <;> simp only [hu] at h ⊢
    · exact runTurnMainReply_ok_status env _ _ _ _ h
    · rcases hx : trySilentExchange env card with ⟨em | _ | exRes, evts⟩ <;>
        simp only [hx] at h ⊢
      · exact absurd h (by simp)
      · exact runTurnMainReply_ok_status env _ _ _ _ h
      · exact runTurnSilentReply_ok_status env s exRes h

/-- When `runTurnCore` resolves, status is `listening`. -/
theorem runTurnCore_ok_status (env : Env) (s : LoopState) (c : String)
    (h : (runTurnCore env s c).result = .ok ()) :
    (runTurnCore env s c).state.status = .listening := by
  unfold runTurnCore at h ⊢
  dsimp only at h ⊢
  rcases hs : env.sendCopilotMessage c with m | response <;> simp only [hs] at h ⊢
  · exact absurd h (by simp)
  · rcases hi : env.interruptSpeech with _ | ir <;> simp only [hi] at h ⊢
    · exact runTurnAfter_ok_status env _ _ h
    · rcases ir with m | u
      · exact absurd h (by simp)
      · exact runTurnAfter_ok_status env _ _ h

/-- The main branch of `runTurn` never reads the filler template: the
final state and the resolution are those of the turn with the filler
disabled. -/
theorem runTurnCore_fillerTemplate (env : Env) (ft : String) (s : LoopState) (c : String) :
    runTurnCore { env with fillerTemplate := ft } s c = runTurnCore env s c := by
  cases env
  rfl

/-- C3 (amended): a failure in the filler branch never changes the turn's
outcome — the final state and the resolution of `runTurn` are exactly
those of the same turn with the filler branch disabled, and the filler
branch swallows its own failures; and status ends `error` exactly when
the turn's awaited (non-filler) operations reject — the backend query,
the playback-interrupt request, the silent token exchange, or final-reply
speech synthesis/playback. -/
theorem runTurn_filler_isolated (env : Env) (s : LoopState) (userText fillerProbe : String)
    (h1 : jsTrim userText ≠ "") (h2 : s.isProcessing = false) :
    ((runTurn env s userText).state
        = (runTurn { env with fillerTemplate := "" } s userText).state
      ∧ (runTurn env s userText).result
        = (runTurn { env with fillerTemplate := "" } s userText).result)
    ∧ (speakFiller env fillerProbe).1 = .ok ()
    ∧ ((runTurn env s userText).state.status = .error
        ↔ ∃ m, (runTurn env s userText).result = .error m) := by
  have hguard : (jsTrim userText == "" || s.isProcessing) = false := by
    simp [h1, h2]
  refine ⟨?_, speakFiller_result env fillerProbe, ?_⟩
  · unfold runTurn
    simp only [runTurnCore_fillerTemplate]
    split <;> exact ⟨rfl, rfl⟩
  · unfold runTurn
    simp only [hguard, Bool.false_eq_true, if_false]
    rcases hr : (runTurnCore env (turnStartState s (jsTrim userText)) (jsTrim userText)).result
      with m | u <;> simp only [hr]
    · exact ⟨fun _ => ⟨m, rfl⟩, fun _ => trivial⟩
    · cases u
      have hst := runTurnCore_ok_status env (turnStartState s (jsTrim userText))
        (jsTrim userText) hr
      constructor
      · intro hbad
        rw [show ({ (runTurnCore env (turnStartState s (jsTrim userText))
              (jsTrim userText)).state with isProcessing := false } : LoopState).status
            = (runTurnCore env (turnStartState s (jsTrim userText))
              (jsTrim userText)).state.status from rfl, hst] at hbad
        cases hbad
      · rintro ⟨m, hm⟩
        cases hm


/-- C3 counterexample: status `error` is not set only by backend-query or
final-reply speech/playback errors.  Here the backend query succeeds, the
filler branch performs no operation, and no final-reply synthesis or
playback is ever attempted (the post-join trace is empty), yet the turn
ends in status `error` — the rejection comes from the playback-interrupt
request. -/
theorem runTurn_error_from_interrupt :
    (runTurn envC3 idleState "hi").state.status = .error
    ∧ (runTurn envC3 idleState "hi").state.error = some "interrupt failed"
    ∧ envC3.sendCopilotMessage "hi" = .ok respBase
    ∧ (runTurn envC3 idleState "hi").fillerEvents = []
    ∧ (runTurn envC3 idleState "hi").postJoinEvents = [] :=
  ⟨rfl, rfl, rfl, rfl, rfl⟩


/-- C3 witness: the amended claim applied at a concrete turn whose filler
branch fails. -/
theorem runTurn_filler_isolated_witness :
    jsTrim "hello" ≠ "" ∧ idleState.isProcessing = false ∧
    (((runTurn envFillerFails idleState "hello").state
        = (runTurn { envFillerFails with fillerTemplate := "" } idleState "hello").state
      ∧ (runTurn envFillerFails idleState "hello").result
        = (runTurn { envFillerFails with fillerTemplate := "" } idleState "hello").result)
    ∧ (speakFiller envFillerFails "hello").1 = .ok ()
    ∧ ((runTurn envFillerFails idleState "hello").state.status = .error
        ↔ ∃ m, (runTurn envFillerFails idleState "hello").result = .error m)) :=
  ⟨by decide, rfl, runTurn_filler_isolated envFillerFails idleState "hello" "hello"
    (by decide) rfl⟩

/-! ### C2 -/

/-- Full outcome of `processBotReply` when synthesis and playback both
succeed. -/
theorem processBotReply_success (env : Env) (s : LoopState) (d : String) (st : Option String)
    (audio : String) (h7 : synthesizeSpeech env (ttsInput d st) = .ok audio)
    (h8 : env.speakAudio audio = .ok ()) :
    processBotReply env s d st
      = ({ s with history := s.history ++ [message .assistant d], status := .listening },
         .ok (), [.fetchTts (ttsInput d st), .speakAudio audio]) := by
  unfold processBotReply
  dsimp only
  rw [h7]
  dsimp only
  rw [h8]

/-- C2: with a non-blank input, a backend reply with non-empty trimmed
text and no SigninCard, and successful synthesis and playback, `runTurn`
resolves with history extended by exactly the user message (trimmed
input) followed by the assistant message (trimmed reply), and final
status `listening`. -/
theorem runTurn_happy_path (env : Env) (s : LoopState) (userText : String)
    (resp : CopilotMessageResponse) (audio : String)
    (h1 : jsTrim userText ≠ "") (h2 : s.isProcessing = false)
    (h3 : env.sendCopilotMessage (jsTrim userText) = .ok resp)
    (h4 : jsTrim resp.botReply ≠ "") (h5 : resp.signinCard = none)
    (h6 : env.interruptSpeech = none ∨ env.interruptSpeech = some (.ok ()))
    (h7 : synthesizeSpeech env
        (ttsInput (jsTrim resp.botReply) (resp.speechText.map jsTrim)) = .ok audio)
    (h8 : env.speakAudio audio = .ok ()) :
    (runTurn env s userText).state.history
        = s.history ++ [message .user (jsTrim userText),
                        message .assistant (jsTrim resp.botReply)]
    ∧ (runTurn env s userText).state.status = .listening
    ∧ (runTurn env s userText).result = .ok () := by
  have hguard : (jsTrim userText == "" || s.isProcessing) = false := by simp [h1, h2]
  have hb : (jsTrim resp.botReply != "") = true := by simp [h4]
  have hpbr := processBotReply_success env
    { turnStartState s (jsTrim userText) with status := .thinking }
    (jsTrim resp.botReply) (resp.speechText.map jsTrim) audio h7 h8
  rcases h6 with h6 | h6 <;>
    simp only [runTurn, runTurnCore, runTurnAfter, runTurnMainReply, hguard,
      Bool.false_eq_true, if_false, h3, h6, h5, hb, if_true, hpbr] <;>
    simp [turnStartState]

/-- C2 witness: the happy path at a concrete environment and input. -/
theorem runTurn_happy_path_witness :
    jsTrim "hello" ≠ "" ∧ idleState.isProcessing = false ∧
    baseEnv.sendCopilotMessage (jsTrim "hello") = .ok respBase ∧
    jsTrim respBase.botReply ≠ "" ∧
    ((runTurn baseEnv idleState "hello").state.history
        = [message .user "hello", message .assistant "hello there"]
      ∧ (runTurn baseEnv idleState "hello").state.status = .listening
      ∧ (runTurn baseEnv idleState "hello").result = .ok ()) := by
  refine ⟨by decide, rfl, rfl, by decide, ?_⟩
  have h := runTurn_happy_path baseEnv idleState "hello" respBase "audio64"
    (by decide) rfl rfl (by decide) rfl (Or.inl rfl) rfl rfl
  simpa using h

/-! ### C4 -/

/-- Full outcome of `trySilentExchange` when the card carries all three
metadata fields, both silent-auth adapters are present, acquisition
returns a non-empty token, and the exchange call resolves. -/
theorem trySilentExchange_success (env : Env) (card : CopilotSigninCard)
    (uri rid cn tok : String) (acquireFn : String → Except String (Option String))
    (exchangeFn : ExchangeParams → Except String CopilotMessageResponse)
    (exResp : CopilotMessageResponse)
    (h5 : card.tokenExchangeResourceUri = some uri) (h5' : uri ≠ "")
    (h6 : card.tokenExchangeResourceId = some rid) (h6' : rid ≠ "")
    (h7 : card.connectionName = some cn) (h7' : cn ≠ "")
    (h8 : env.acquireConnectionToken = some acquireFn)
    (h9 : env.exchangeConnectionToken = some exchangeFn)
    (h10 : acquireFn uri = .ok (some tok)) (h10' : tok ≠ "")
    (h11 : exchangeFn { connectionToken := tok, connectionName := cn,
                        tokenExchangeResourceId := rid } = .ok exResp) :
    trySilentExchange env card
      = (.ok (some exResp),
         [.acquireConnectionToken uri, .exchangeConnectionToken tok cn rid]) := by
  unfold trySilentExchange
  have e1 : (uri == "") = false := by simpa using h5'
  have e2 : (rid == "") = false := by simpa using h6'
  have e3 : (cn == "") = false := by simpa using h7'
  have e4 : (tok == "") = false := by simpa using h10'
  simp only [h5, h6, h7, h8, h9, e1, e2, e3, e4, Bool.false_or, Bool.or_false,
    Bool.false_eq_true, if_false, h10, h11]

/-- C4: when the backend reply carries a SigninCard with full token
exchange metadata, silent credential acquisition succeeds with a
non-empty credential, and the exchange call resolves with non-empty
trimmed reply text, the card never becomes pending — every
`setSigninCard` write in every interleaved trace of the turn writes
`null`, the field ends `none` — and history gains the exchanged reply as
the turn's assistant message. -/
theorem runTurn_silent_exchange (env : Env) (s : LoopState) (userText : String)
    (resp : CopilotMessageResponse) (card : CopilotSigninCard)
    (uri rid cn tok : String) (acquireFn : String → Except String (Option String))
    (exchangeFn : ExchangeParams → Except String CopilotMessageResponse)
    (exResp : CopilotMessageResponse) (choices : List Bool)
    (h1 : jsTrim userText ≠ "") (h2 : s.isProcessing = false)
    (h3 : env.sendCopilotMessage (jsTrim userText) = .ok resp)
    (h4 : resp.signinCard = some card)
    (h5 : card.tokenExchangeResourceUri = some uri) (h5' : uri ≠ "")
    (h6 : card.tokenExchangeResourceId = some rid) (h6' : rid ≠ "")
    (h7 : card.connectionName = some cn) (h7' : cn ≠ "")
    (h8 : env.acquireConnectionToken = some acquireFn)
    (h9 : env.exchangeConnectionToken = some exchangeFn)
    (h10 : acquireFn uri = .ok (some tok)) (h10' : tok ≠ "")
    (h11 : exchangeFn { connectionToken := tok, connectionName := cn,
                        tokenExchangeResourceId := rid } = .ok exResp)
    (h12 : jsTrim exResp.botReply ≠ "")
    (h13 : env.interruptSpeech = none ∨ env.interruptSpeech = some (.ok ())) :
    (runTurn env s userText).state.signinCard = none
    ∧ (runTurn env s userText).state.history
        = s.history ++ [message .user (jsTrim userText),
                        message .assistant (jsTrim exResp.botReply)]
    ∧ ∀ c : CopilotSigninCard,
        Event.setSigninCard (some c) ∉ runTurnTrace choices (runTurn env s userText) := by
  have hguard : (jsTrim userText == "" || s.isProcessing) = false := by simp [h1, h2]
  have hu : strTruthy card.tokenExchangeResourceUri = true := by
    simp [h5, strTruthy, h5']
  have hx := trySilentExchange_success env card uri rid cn tok acquireFn exchangeFn exResp
    h5 h5' h6 h6' h7 h7' h8 h9 h10 h10' h11
  have hbe : (jsTrim exResp.botReply != "") = true := by simp [h12]
  rcases h13 with h13 | h13 <;>
    (simp only [runTurn, runTurnCore, runTurnAfter, runTurnSilentReply, runTurnTrace,
       hguard, Bool.false_eq_true, if_false, h3, h13, h4, hu, if_true, hx, hbe]
     refine ⟨?_, ?_, ?_⟩
     · split <;> simp [processBotReply_signinCard, turnStartState]
     · split <;> simp [processBotReply_history, turnStartState]
     · intro c
       have hf := speakFiller_events_speech env (jsTrim userText)
       have hp := processBotReply_events_speech env
         { turnStartState s (jsTrim userText) with status := .thinking }
         (jsTrim exResp.botReply) (exResp.speechText.map jsTrim)
       simp only [List.mem_append, mem_interleave, List.mem_cons, List.not_mem_nil,
         or_false, false_or, not_or]
       repeat' apply And.intro
       all_goals first
         | simp
         | (intro hm; exact absurd (hf _ hm) (by simp [Event.isSpeech]))
         | (intro hm; exact absurd (hp _ hm) (by simp [Event.isSpeech])))





/-- C4 witness: the silent-exchange path at a concrete environment. -/
theorem runTurn_silent_exchange_witness :
    jsTrim "open file" ≠ "" ∧ idleState.isProcessing = false ∧
    envC4.sendCopilotMessage (jsTrim "open file") = .ok respWithCardC4 ∧
    ((runTurn envC4 idleState "open file").state.signinCard = none
      ∧ (runTurn envC4 idleState "open file").state.history
          = [message .user "open file", message .assistant "here are your files"]
      ∧ ∀ c : CopilotSigninCard,
          Event.setSigninCard (some c)
            ∉ runTurnTrace [true, false] (runTurn envC4 idleState "open file")) := by
  refine ⟨by decide, rfl, rfl, ?_⟩
  have h := runTurn_silent_exchange envC4 idleState "open file" respWithCardC4 cardC4
    "https://resource" "rid-1" "SharePoint" "connTok"
    (fun _ => .ok (some "connTok")) (fun _ => .ok respExchanged) respExchanged
    [true, false]
    (by decide) rfl rfl rfl rfl (by decide) rfl (by decide) rfl (by decide)
    rfl rfl rfl (by decide) rfl (by decide) (Or.inl rfl)
  simpa using h

/-! ### C5 -/

/-- C5: in every run whose backend branch resolves (with the interrupt
adapter wired), every interleaved trace of the turn splits into a
pre-join segment followed by the post-join events: the pre-join segment
contains the interrupt request and every event of the filler branch, and
contains no playback or synthesis request other than the filler's own —
so any final-reply playback, which lives in the post-join segment, comes
strictly after both the interrupt request and the filler branch's
settlement. -/
theorem runTurn_interrupt_then_join (env : Env) (s : LoopState)
    (userText : String) (resp : CopilotMessageResponse) (r : Except String Unit)
    (choices : List Bool)
    (h1 : jsTrim userText ≠ "") (h2 : s.isProcessing = false)
    (h3 : env.sendCopilotMessage (jsTrim userText) = .ok resp)
    (h4 : env.interruptSpeech = some r) :
    ∃ pre, runTurnTrace choices (runTurn env s userText)
        = pre ++ (runTurn env s userText).postJoinEvents
      ∧ Event.interruptSpeech ∈ pre
      ∧ (∀ e ∈ (runTurn env s userText).fillerEvents, e ∈ pre)
      ∧ (∀ a, Event.speakAudio a ∈ pre
            → Event.speakAudio a ∈ (runTurn env s userText).fillerEvents) := by
  have hguard : (jsTrim userText == "" || s.isProcessing) = false := by simp [h1, h2]
  have hinit : (runTurn env s userText).initEvents = [.setSigninCard none] := by
    simp [runTurn, hguard]
  have hpre : (runTurn env s userText).preJoinEvents
      = [Event.sendCopilotMessage (jsTrim userText), Event.interruptSpeech] := by
    simp only [runTurn, hguard, Bool.false_eq_true, if_false, runTurnCore, h3, h4]
    rcases r with m | u <;> rfl
  refine ⟨(runTurn env s userText).initEvents
      ++ interleave choices (runTurn env s userText).fillerEvents
           (runTurn env s userText).preJoinEvents, ?_, ?_, ?_, ?_⟩
  · simp [runTurnTrace, List.append_assoc]
  · refine List.mem_append.mpr (Or.inr ?_)
    refine (mem_interleave _ _ _ _).mpr (Or.inr ?_)
    rw [hpre]
    simp
  · intro e he
    exact List.mem_append.mpr (Or.inr ((mem_interleave _ _ _ _).mpr (Or.inl he)))
  · intro a ha
    rcases List.mem_append.mp ha with h | h
    · rw [hinit] at h
      simp at h
    · rcases (mem_interleave _ _ _ _).mp h with h | h
      · exact h
      · rw [hpre] at h
        simp at h


/-- C5 witness: the ordering property at a concrete turn and a concrete
scheduler choice list. -/
theorem runTurn_interrupt_then_join_witness :
    jsTrim "hello" ≠ "" ∧ idleState.isProcessing = false ∧
    envC5.sendCopilotMessage (jsTrim "hello") = .ok respBase ∧
    envC5.interruptSpeech = some (.ok ()) ∧
    (∃ pre, runTurnTrace [false, true] (runTurn envC5 idleState "hello")
        = pre ++ (runTurn envC5 idleState "hello").postJoinEvents
      ∧ Event.interruptSpeech ∈ pre
      ∧ (∀ e ∈ (runTurn envC5 idleState "hello").fillerEvents, e ∈ pre)
      ∧ (∀ a, Event.speakAudio a ∈ pre
            → Event.speakAudio a ∈ (runTurn envC5 idleState "hello").fillerEvents)) :=
  ⟨by decide, rfl, rfl, rfl,
   runTurn_interrupt_then_join envC5 idleState "hello" respBase (.ok ()) [false, true]
     (by decide) rfl rfl rfl⟩

/-! ### C6 -/




/-- C6 counterexample: a backend reply whose SigninCard has
`tokenExchangeResourceUri` present (and both silent-auth adapters wired)
but lacks `tokenExchangeResourceId`: the orchestrator never calls
`acquireConnectionToken` — the whole trace contains no acquisition —
and the card still becomes pending. -/
theorem runTurn_uri_alone_no_silent_attempt :
    cardC6.tokenExchangeResourceUri = some "https://resource"
    ∧ envC6.acquireConnectionToken.isSome = true
    ∧ (runTurn envC6 idleState "hi").state.signinCard = some cardC6
    ∧ runTurnTrace [] (runTurn envC6 idleState "hi")
        = [.setSigninCard none, .sendCopilotMessage "hi", .setSigninCard (some cardC6)]
    ∧ ∀ sc, Event.acquireConnectionToken sc ∉ runTurnTrace [] (runTurn envC6 idleState "hi") := by
  refine ⟨rfl, rfl, rfl, rfl, ?_⟩
  intro sc hm
  rw [show runTurnTrace [] (runTurn envC6 idleState "hi")
      = [.setSigninCard none, .sendCopilotMessage "hi", .setSigninCard (some cardC6)]
    from rfl] at hm
  simp at hm

/-- With all three metadata fields truthy and both adapters present, the
silent exchange's first adapter call is the acquisition for the card's
URI. -/
theorem trySilentExchange_events_head (env : Env) (card : CopilotSigninCard)
    (uri rid cn : String) (acquireFn : String → Except String (Option String))
    (exchangeFn : ExchangeParams → Except String CopilotMessageResponse)
    (h5 : card.tokenExchangeResourceUri = some uri) (h5' : uri ≠ "")
    (h6 : card.tokenExchangeResourceId = some rid) (h6' : rid ≠ "")
    (h7 : card.connectionName = some cn) (h7' : cn ≠ "")
    (h8 : env.acquireConnectionToken = some acquireFn)
    (h9 : env.exchangeConnectionToken = some exchangeFn) :
    ∃ rest, (trySilentExchange env card).2
      = Event.acquireConnectionToken uri :: rest := by
  unfold trySilentExchange
  have e1 : (uri == "") = false := by simpa using h5'
  have e2 : (rid == "") = false := by simpa using h6'
  have e3 : (cn == "") = false := by simpa using h7'
  simp only [h5, h6, h7, h8, h9, e1, e2, e3, Bool.false_or, Bool.or_false,
    Bool.false_eq_true, if_false]
  rcases hA : acquireFn uri with m | _ | t <;> simp only [hA]
  · exact ⟨[], rfl⟩
  · exact ⟨[], rfl⟩
  · cases ht : (t == "") <;> simp only [ht, Bool.false_eq_true, if_false, if_true]
    · rcases hE : exchangeFn ⟨t, cn, rid⟩ with m | r <;> simp only [hE]
      · exact ⟨_, rfl⟩
      · exact ⟨_, rfl⟩
    · exact ⟨[], rfl⟩

/-- C6 (amended): when the backend reply carries a SigninCard whose
`tokenExchangeResourceUri`, `tokenExchangeResourceId` and
`connectionName` are all present and non-empty and both silent-auth
adapters are configured, the orchestrator calls `acquireConnectionToken`
with that URI as the very first post-join step — before the card can
become pending: a pending-card write can only appear in the post-join
segment, after that call. -/
theorem runTurn_silent_attempt_first (env : Env) (s : LoopState) (userText : String)
    (resp : CopilotMessageResponse) (card : CopilotSigninCard)
    (uri rid cn : String) (acquireFn : String → Except String (Option String))
    (exchangeFn : ExchangeParams → Except String CopilotMessageResponse)
    (h1 : jsTrim userText ≠ "") (h2 : s.isProcessing = false)
    (h3 : env.sendCopilotMessage (jsTrim userText) = .ok resp)
    (h4 : resp.signinCard = some card)
    (h5 : card.tokenExchangeResourceUri = some uri) (h5' : uri ≠ "")
    (h6 : card.tokenExchangeResourceId = some rid) (h6' : rid ≠ "")
    (h7 : card.connectionName = some cn) (h7' : cn ≠ "")
    (h8 : env.acquireConnectionToken = some acquireFn)
    (h9 : env.exchangeConnectionToken = some exchangeFn)
    (h13 : env.interruptSpeech = none ∨ env.interruptSpeech = some (.ok ())) :
    (runTurn env s userText).postJoinEvents.head?
        = some (Event.acquireConnectionToken uri)
    ∧ ∀ c : CopilotSigninCard,
        Event.setSigninCard (some c) ∉ (runTurn env s userText).initEvents
        ∧ Event.setSigninCard (some c) ∉ (runTurn env s userText).fillerEvents
        ∧ Event.setSigninCard (some c) ∉ (runTurn env s userText).preJoinEvents := by
  have hguard : (jsTrim userText == "" || s.isProcessing) = false := by simp [h1, h2]
  have hu : strTruthy card.tokenExchangeResourceUri = true := by
    simp [h5, strTruthy, h5']
  obtain ⟨rest, hrest⟩ := trySilentExchange_events_head env card uri rid cn
    acquireFn exchangeFn h5 h5' h6 h6' h7 h7' h8 h9
  rcases h13 with h13 | h13 <;>
    (simp only [runTurn, runTurnCore, runTurnAfter, hguard, Bool.false_eq_true, if_false,
       h3, h13, h4, hu, if_true]
     refine ⟨?_, ?_⟩
     · rcases hx2 : trySilentExchange env card with ⟨res, evts⟩
       have hevts : evts = Event.acquireConnectionToken uri :: rest := by
         rw [hx2] at hrest
         exact hrest
       rcases res with m | _ | er <;> simp only [hx2, hevts] <;> simp
     · intro c
       refine ⟨?_, ?_, ?_⟩
       · simp
       · intro hm
         exact absurd (speakFiller_events_speech env _ _ hm) (by simp [Event.isSpeech])
       · simp)

/-- C6 witness: the amended claim at the concrete silent-exchange
environment. -/
theorem runTurn_silent_attempt_first_witness :
    jsTrim "open file" ≠ "" ∧ idleState.isProcessing = false ∧
    envC4.sendCopilotMessage (jsTrim "open file") = .ok respWithCardC4 ∧
    ((runTurn envC4 idleState "open file").postJoinEvents.head?
        = some (Event.acquireConnectionToken "https://resource")
      ∧ ∀ c : CopilotSigninCard,
          Event.setSigninCard (some c) ∉ (runTurn envC4 idleState "open file").initEvents
          ∧ Event.setSigninCard (some c)
              ∉ (runTurn envC4 idleState "open file").fillerEvents
          ∧ Event.setSigninCard (some c)
              ∉ (runTurn envC4 idleState "open file").preJoinEvents) :=
  ⟨by decide, rfl, rfl,
   runTurn_silent_attempt_first envC4 idleState "open file" respWithCardC4 cardC4
     "https://resource" "rid-1" "SharePoint"
     (fun _ => .ok (some "connTok")) (fun _ => .ok respExchanged)
     (by decide) rfl rfl rfl rfl (by decide) rfl (by decide) rfl (by decide)
     rfl rfl (Or.inl rfl)⟩

/-! ### C7 -/

/-- If `handleExchangeSuccess` (entered only after the exchange call
resolved, with the pending card already cleared) ends in status `error`,
the pending card is `none` and an error message is recorded. -/
theorem handleExchangeSuccess_error_status (env : Env) (s1 : LoopState)
    (result : CopilotMessageResponse)
    (h : (handleExchangeSuccess env s1 result).1.status = .error) :
    (handleExchangeSuccess env s1 result).1.signinCard = none
    ∧ (handleExchangeSuccess env s1 result).1.error ≠ none := by
  unfold handleExchangeSuccess at h ⊢
  dsimp only at h ⊢
  cases hb : (jsTrim result.botReply != "") <;>
    simp only [hb, Bool.false_eq_true, if_false, if_true] at h ⊢
  · rcases hc : result.signinCard with _ | card2 <;> simp only [hc] at h ⊢ <;> cases h
  · split at h
    · rename_i s3 u evts heq
      dsimp only at h
      have hok : (processBotReply env { s1 with signinCard := none } (jsTrim result.botReply)
          (result.speechText.map jsTrim)).2.1 = .ok () := by rw [heq]
      have hls := processBotReply_ok_status env _ _ _ hok
      rw [heq] at hls
      dsimp only at hls
      exact absurd (hls.symm.trans h) (by simp)
    · rename_i s3 m evts heq
      dsimp only at h ⊢
      have hsc := processBotReply_signinCard env { s1 with signinCard := none }
        (jsTrim result.botReply) (result.speechText.map jsTrim)
      rw [heq] at hsc
      dsimp only at hsc
      exact ⟨hsc, by simp⟩




/-- C7 counterexample: a failure *after* the precondition check does not
always leave the pending card untouched.  With a pending card carrying
full metadata, the exchange call succeeds and the follow-up speech
synthesis throws: `completeTokenExchange` ends with status `error` and
the error recorded, but the pending card has been cleared, not kept. -/
theorem completeTokenExchange_post_failure_clears_card :
    pendingState.signinCard = some cardC4
    ∧ (completeTokenExchange envC7 pendingState "tok").state.status = .error
    ∧ (completeTokenExchange envC7 pendingState "tok").state.error = some "tts down"
    ∧ (completeTokenExchange envC7 pendingState "tok").state.signinCard = none :=
  ⟨rfl, rfl, rfl, rfl⟩

/-- C7 (amended): with a pending card carrying truthy
`tokenExchangeResourceId` and `connectionName` and the exchange adapter
wired, a failure of the exchange call itself sets status `error`, records
the message, and leaves the whole state otherwise untouched — in
particular the pending card is still visible; a failure in a later step
(processing the follow-up reply after a successful exchange) also sets
status `error` and records a message, but the pending card has already
been cleared. -/
theorem completeTokenExchange_failure (env : Env) (s : LoopState) (connectionToken : String)
    (card : CopilotSigninCard) (rid cn : String)
    (exchangeFn : ExchangeParams → Except String CopilotMessageResponse)
    (hc : s.signinCard = some card)
    (h2 : card.tokenExchangeResourceId = some rid) (h2' : rid ≠ "")
    (h3 : card.connectionName = some cn) (h3' : cn ≠ "")
    (h4 : env.exchangeConnectionToken = some exchangeFn) :
    (∀ m, exchangeFn ⟨connectionToken, cn, rid⟩ = .error m →
        (completeTokenExchange env s connectionToken).state
          = { s with status := .error, error := some m, isExchanging := false })
    ∧ (∀ result, exchangeFn ⟨connectionToken, cn, rid⟩ = .ok result →
        (completeTokenExchange env s connectionToken).state.status = .error →
          (completeTokenExchange env s connectionToken).state.signinCard = none
          ∧ (completeTokenExchange env s connectionToken).state.error ≠ none) := by
  have e2 : (rid == "") = false := by simpa using h2'
  have e3 : (cn == "") = false := by simpa using h3'
  simp only [completeTokenExchange, hc, h2, h3, h4, e2, e3, Bool.or_false, Bool.false_or,
    Bool.false_eq_true, if_false]
  constructor
  · intro m hm
    simp only [hm]
  · intro result hr
    simp only [hr]
    intro hst
    exact handleExchangeSuccess_error_status env _ result hst

/-- C7 witness: the amended claim at the concrete post-exchange-failure
environment. -/
theorem completeTokenExchange_failure_witness :
    pendingState.signinCard = some cardC4 ∧
    envC7.exchangeConnectionToken = some (fun _ => .ok respFollowUp) ∧
    ((∀ m, (fun _ => .ok respFollowUp :
          ExchangeParams → Except String CopilotMessageResponse) ⟨"tok", "SharePoint", "rid-1"⟩
            = .error m →
        (completeTokenExchange envC7 pendingState "tok").state
          = { pendingState with status := .error, error := some m, isExchanging := false })
    ∧ (∀ result, (fun _ => .ok respFollowUp :
          ExchangeParams → Except String CopilotMessageResponse) ⟨"tok", "SharePoint", "rid-1"⟩
            = .ok result →
        (completeTokenExchange envC7 pendingState "tok").state.status = .error →
          (completeTokenExchange envC7 pendingState "tok").state.signinCard = none
          ∧ (completeTokenExchange envC7 pendingState "tok").state.error ≠ none)) :=
  ⟨rfl, rfl,
   completeTokenExchange_failure envC7 pendingState "tok" cardC4 "rid-1" "SharePoint"
     (fun _ => .ok respFollowUp) rfl rfl (by decide) rfl (by decide) rfl⟩

/-! ### C8 -/

/-- C8: precondition violations of `completeTokenExchange` (no pending
card, or a pending card lacking truthy `tokenExchangeResourceId` /
`connectionName`) and of `submitAllowAction` (no pending card with a
`submitAction` payload) reject synchronously with a dedicated
programmer-error message, make no adapter call, and leave the state
untouched; whereas with the preconditions satisfied, runtime failures are
never rethrown — the operation resolves, with the failure recorded via
status `error` and the error message. -/
theorem precondition_violations (env : Env) (s : LoopState) (connectionToken : String) :
    (s.signinCard = none →
        completeTokenExchange env s connectionToken
          = { state := s,
              result := .error "No pending signin card with token exchange metadata",
              events := [] })
    ∧ (∀ card, s.signinCard = some card →
        (strTruthy card.tokenExchangeResourceId = false
          ∨ strTruthy card.connectionName = false) →
        completeTokenExchange env s connectionToken
          = { state := s,
              result := .error "No pending signin card with token exchange metadata",
              events := [] })
    ∧ (s.signinCard.bind CopilotSigninCard.submitAction = none →
        submitAllowAction env s
          = { state := s,
              result := .error "No pending signin card with submit action data",
              events := [] })
    ∧ (∀ card rid cn exchangeFn, s.signinCard = some card →
        card.tokenExchangeResourceId = some rid → rid ≠ "" →
        card.connectionName = some cn → cn ≠ "" →
        env.exchangeConnectionToken = some exchangeFn →
        (completeTokenExchange env s connectionToken).result = .ok ()
        ∧ ∀ m, exchangeFn ⟨connectionToken, cn, rid⟩ = .error m →
            (completeTokenExchange env s connectionToken).state.status = .error
            ∧ (completeTokenExchange env s connectionToken).state.error = some m)
    ∧ (∀ card payload submitFn, s.signinCard = some card →
        card.submitAction = some payload →
        env.submitCardAction = some submitFn →
        (submitAllowAction env s).result = .ok ()
        ∧ ∀ m, submitFn payload = .error m →
            (submitAllowAction env s).state.status = .error
            ∧ (submitAllowAction env s).state.error = some m) := by
  refine ⟨?_, ?_, ?_, ?_, ?_⟩
  · intro h
    simp [completeTokenExchange, h]
  · intro card hc hbad
    unfold completeTokenExchange
    dsimp only
    rcases hrid : card.tokenExchangeResourceId with _ | rid <;>
      rcases hcn : card.connectionName with _ | cn <;>
        simp only [hc, hrid, hcn]
    · rcases hbad with hb | hb
      · rw [hrid] at hb
        simp [strTruthy] at hb
        simp [hb]
      · rw [hcn] at hb
        simp [strTruthy] at hb
        simp [hb]
  · intro h
    simp [submitAllowAction, h]
  · intro card rid cn exchangeFn hc h2 h2' h3 h3' h4
    have e2 : (rid == "") = false := by simpa using h2'
    have e3 : (cn == "") = false := by simpa using h3'
    simp only [completeTokenExchange, hc, h2, h3, h4, e2, e3, Bool.or_false, Bool.false_or,
      Bool.false_eq_true, if_false]
    constructor
    · split
      · rfl
      · rfl
    · intro m hm
      simp [hm]
  · intro card payload submitFn hc hp h4
    simp only [submitAllowAction, hc, Option.bind, hp, h4]
    constructor
    · split
      · rfl
      · rfl
    · intro m hm
      simp [hm]

/-- C8 witness: the programmer-error rejection at a concrete state with
no pending card. -/
theorem precondition_violations_witness :
    idleState.signinCard = none ∧
    completeTokenExchange baseEnv idleState "tok"
      = { state := idleState,
          result := .error "No pending signin card with token exchange metadata",
          events := [] } :=
  ⟨rfl, (precondition_violations baseEnv idleState "tok").1 rfl⟩

/-! ### C10 -/

/-- C10: an input whose trim is empty makes `runTurn` a complete no-op,
whether or not a turn is in progress: the state (including the
re-entrancy flag) is unchanged and no adapter is called. -/
theorem runTurn_blank_noop (env : Env) (s : LoopState) (userText : String)
    (h : jsTrim userText = "") :
    runTurn env s userText =
      { state := s, result := .ok (), initEvents := [], fillerEvents := [],
        preJoinEvents := [], postJoinEvents := [] } := by
  unfold runTurn
  simp [h]

/-- C10 witness: a whitespace-only input at a concrete non-busy state. -/
theorem runTurn_blank_noop_witness :
    jsTrim "   " = "" ∧ idleState.isProcessing = false ∧
    runTurn baseEnv idleState "   " =
      { state := idleState, result := .ok (), initEvents := [], fillerEvents := [],
        preJoinEvents := [], postJoinEvents := [] } :=
  ⟨by decide, rfl, runTurn_blank_noop baseEnv idleState "   " (by decide)⟩

end ConvLoop
